import Mathlib

set_option linter.unusedVariables false

namespace Weather

/-- Calendar date-time at minute precision, as produced by parsing the ISO
timestamps of the payload (`datetime.fromisoformat`).  The embedding keeps
timestamps already parsed; numeric JSON values are modelled as integers. -/
structure DateTime where
  year : Nat
  month : Nat
  day : Nat
  hour : Nat
  minute : Nat
deriving DecidableEq

instance : Inhabited DateTime := ⟨⟨1, 1, 1, 0, 0⟩⟩

/-- `dt.date()` of Python: the calendar-date component. -/
def DateTime.date (d : DateTime) : Nat × Nat × Nat := (d.year, d.month, d.day)

/-- Strict comparison of Python `datetime` values: lexicographic on
(year, month, day, hour, minute). -/
def DateTime.lt (a b : DateTime) : Bool :=
  if a.year = b.year then
    if a.month = b.month then
      if a.day = b.day then
        if a.hour = b.hour then decide (a.minute < b.minute)
        else decide (a.hour < b.hour)
      else decide (a.day < b.day)
    else decide (a.month < b.month)
  else decide (a.year < b.year)

/-- Non-strict comparison of Python `datetime` values. -/
def DateTime.le (a b : DateTime) : Bool := DateTime.lt a b || a == b

def DAYS_FORECAST : Nat := 5

def WEATHER_MAP : List (Int × (String × String)) :=
  [ (0, (("☀️"), ("Clear sky"))),
    (1, (("🌤️"), ("Mainly clear"))),
    (2, (("⛅"), ("Partly cloudy"))),
    (3, (("☁️"), ("Overcast"))),
    (45, (("🌫️"), ("Fog"))),
    (48, (("🌫️"), ("Depositing rime fog"))),
    (51, (("🌦️"), ("Light drizzle"))),
    (53, (("🌦️"), ("Moderate drizzle"))),
    (55, (("🌦️"), ("Dense drizzle"))),
    (61, (("🌧️"), ("Slight rain"))),
    (63, (("🌧️"), ("Moderate rain"))),
    (65, (("🌧️"), ("Heavy rain"))),
    (66, (("🌧️"), ("Light freezing rain"))),
    (67, (("🌧️"), ("Heavy freezing rain"))),
    (71, (("❄️"), ("Slight snow"))),
    (73, (("❄️"), ("Moderate snow"))),
    (75, (("❄️"), ("Heavy snow"))),
    (80, (("🌦️"), ("Slight rain showers"))),
    (81, (("🌧️"), ("Moderate rain showers"))),
    (82, (("🌧️"), ("Violent rain showers"))),
    (95, (("⛈️"), ("Thunderstorm"))),
    (96, (("⛈️"), ("Thunderstorm with hail (slight)"))),
    (99, (("⛈️"), ("Thunderstorm with hail (severe)"))) ]

def SHORT_DESC_MAP : List (String × String) :=
  [ (("Slight rain showers"), ("Slight rain")),
    (("Moderate rain showers"), ("Moderate rain")),
    (("Violent rain showers"), ("Heavy rain")),
    (("Thunderstorm with hail (slight)"), ("Hail Storm")),
    (("Thunderstorm with hail (severe)"), ("Severe Storm")),
    (("Light drizzle"), ("Drizzle")),
    (("Moderate drizzle"), ("Mod drizzle")),
    (("Dense drizzle"), ("Dense drizzle")),
    (("Slight rain"), ("Slight rain")),
    (("Moderate rain"), ("Mod rain")),
    (("Heavy rain"), ("Heavy rain")),
    (("Light freezing rain"), ("Freezing rain")),
    (("Heavy freezing rain"), ("Heavy freeze")),
    (("Slight snow"), ("Snow")),
    (("Moderate snow"), ("Mod snow")),
    (("Heavy snow"), ("Heavy snow")),
    (("Clear sky"), ("Clear")),
    (("Mainly clear"), ("Mainly clear")),
    (("Partly cloudy"), ("Part cloudy")),
    (("Overcast"), ("Overcast")),
    (("Fog"), ("Fog")),
    (("Depositing rime fog"), ("Rime fog")) ]

def FG_HEADER : String := "#f4b8e4"

def FG_TEXT : String := "#ffffff"

def TEMP_COLORS : List (Int × String) :=
  [ (15, ("#8caaee")),
    (18, ("#85c1dc")),
    (21, ("#99d1db")),
    (24, ("#81c8be")),
    (27, ("#a6d189")),
    (30, ("#e5c890")),
    (32, ("#ef9f76")),
    (33, ("#ea999c")),
    (100, ("#e78284")) ]

/-- `temp_to_color`: first threshold with `temp <= t_max` wins, else the last
entry's color (`TEMP_COLORS[-1][1]`). -/
def temp_to_color (temp : Int) : String :=
  match TEMP_COLORS.find? (fun p => decide (temp ≤ p.1)) with
  | some p => p.2
  | none => (TEMP_COLORS.getLast (by decide)).2

/-- `get_weather_info`: icon and description for a weather code, with the
fallback pair for unknown codes. -/
def get_weather_info (code : Int) : String × String :=
  (WEATHER_MAP.lookup code).getD (("❓"), ("Unknown"))

/-- `get_short_desc`: shortened description, identity outside the table. -/
def get_short_desc (desc : String) : String :=
  (SHORT_DESC_MAP.lookup desc).getD desc

/-- One pass of `re.sub(r"<.*?>", "", line)`: each `<` that is followed by a
`>` is removed together with everything up to and including the first such
`>`; a `<` with no later `>` stays. -/
def strip_tags : List Char → List Char
  | [] => []
  | c :: rest =>
    if c == '<' && rest.contains '>' then
      strip_tags ((rest.dropWhile (fun x => x != '>')).drop 1)
    else
      c :: strip_tags rest
termination_by cs => cs.length
decreasing_by
  all_goals simp only [List.length_cons, List.length_drop]
  case _ =>
    have h : (rest.dropWhile (fun x => x != '>')).length ≤ rest.length :=
      (List.dropWhile_sublist _).length_le
    omega
  case _ => omega

/-- `max_line_length`: maximum visible length over the lines (markup tags
stripped), `0` for the empty list. -/
def max_line_length (lines : List String) : Nat :=
  (lines.map (fun l => (strip_tags l.data).length)).foldl Nat.max 0

def hexDigit (n : Nat) : Char :=
  if n < 10 then Char.ofNat (48 + n) else Char.ofNat (87 + n)

def hex4 (n : Nat) : String :=
  String.mk [hexDigit (n / 4096 % 16), hexDigit (n / 256 % 16),
             hexDigit (n / 16 % 16), hexDigit (n % 16)]

/-- Escaping of one character as done by `json.dumps` (`ascii` selects the
default `ensure_ascii=True` behaviour). -/
def json_escape_char (ascii : Bool) (c : Char) : String :=
  if c == '"' then "\\\""
  else if c == '\\' then "\\\\"
  else if c == '\n' then "\\n"
  else if c == '\r' then "\\r"
  else if c == '\t' then "\\t"
  else if c.toNat == 8 then "\\b"
  else if c.toNat == 12 then "\\f"
  else if c.toNat < 32 then "\\u" ++ hex4 c.toNat
  else if ascii && 126 < c.toNat then
    if c.toNat < 65536 then "\\u" ++ hex4 c.toNat
    else
      "\\u" ++ hex4 (55296 + (c.toNat - 65536) / 1024) ++
      "\\u" ++ hex4 (56320 + (c.toNat - 65536) % 1024)
  else String.mk [c]

/-- A JSON string literal as serialised by `json.dumps`. -/
def json_quote (ascii : Bool) (s : String) : String :=
  "\"" ++ String.join (s.data.map (json_escape_char ascii)) ++ "\""

/-- `json.dumps` of an object whose values are strings, with the default
separators `", "` and `": "`. -/
def json_dumps_obj (ascii : Bool) (kvs : List (String × String)) : String :=
  "\x7b" ++
    String.intercalate (", ")
      (kvs.map (fun kv => json_quote ascii kv.1 ++ ": " ++ json_quote ascii kv.2)) ++
  "\x7d"

/-- What one process run prints to stdout and the status it exits with. -/
structure ProcResult where
  stdout : String
  exitCode : Nat
deriving DecidableEq

/-- `fail`: print the fixed-shape fallback object (two keys only, default
`ensure_ascii=True` dump) and exit with status 0. -/
def fail (msg : String) : ProcResult :=
  { stdout := json_dumps_obj true
      [ (("text"), ("N/A")),
        (("tooltip"), ("<span foreground='" ++ FG_HEADER ++ "'>" ++ msg ++ "</span>")) ],
    exitCode := 0 }

/-- Response of the IP-geolocation service; absent keys are `none`. -/
structure GeoResponse where
  lat : Option Int
  lon : Option Int
  city : Option String
deriving DecidableEq

/-- `get_location_by_ip`, with the two network calls supplied as oracle
results (`Except` errors cover network failures, non-success status of the
second call, and malformed JSON).  A missing `lat` or `lon` key raises inside
the `try` and is swallowed; a missing `city` key is defaulted by `dict.get`. -/
def get_location_by_ip (ipResult : Except String String)
    (geoResult : Except String GeoResponse) : Int × Int × String :=
  match ipResult with
  | .error _ => (0, 0, ("Your Location"))
  | .ok _ip =>
    match geoResult with
    | .error _ => (0, 0, ("Your Location"))
    | .ok data =>
      match data.lat, data.lon with
      | some la, some lo => (la, lo, data.city.getD ("Your Location"))
      | some _, none => (0, 0, ("Your Location"))
      | none, _ => (0, 0, ("Your Location"))

/-- `build_api_url`. -/
def build_api_url (lat lon : Int) : String :=
  "https://api.open-meteo.com/v1/forecast?" ++
  "latitude=" ++ toString lat ++ "&longitude=" ++ toString lon ++
  "&current_weather=true" ++
  "&hourly=temperature_2m,apparent_temperature,weathercode," ++
  "relativehumidity_2m,windspeed_10m,precipitation_probability,precipitation" ++
  "&daily=temperature_2m_max,temperature_2m_min,weathercode,precipitation_sum" ++
  "&timezone=auto"

/-- `hourly` sub-object of the payload.  The three fields every builder
subscripts directly are required; the ones read with `dict.get` are optional. -/
structure Hourly where
  time : List DateTime
  temperature_2m : List Int
  weathercode : List Int
  apparent_temperature : Option (List Int)
  relativehumidity_2m : Option (List Int)
  windspeed_10m : Option (List Int)
  precipitation_probability : Option (List Int)
  precipitation : Option (List Int)
deriving DecidableEq

/-- `daily` sub-object of the payload (`precipitation_sum` is requested by the
URL but never read, so it is not modelled). -/
structure Daily where
  time : List DateTime
  temperature_2m_max : List Int
  temperature_2m_min : List Int
  weathercode : List Int
deriving DecidableEq

structure CurrentWeatherData where
  temperature : Int
  weathercode : Int
deriving DecidableEq

/-- The forecast payload as used by the program. -/
structure Payload where
  current_weather : CurrentWeatherData
  hourly : Hourly
  daily : Daily
deriving DecidableEq

/-- `fetch_weather_data`, with the HTTP call supplied as an oracle result: on
any failure it runs `fail(f"Failed to fetch weather: {e}")`, which prints the
fallback object and exits 0. -/
def fetch_weather_data (r : Except String Payload) : Except ProcResult Payload :=
  match r with
  | .error e => .error (fail ("Failed to fetch weather: " ++ e))
  | .ok data => .ok data

/-- The `for`/`return` loop of `find_current_hour_index`: index of the first
element satisfying the predicate. -/
def find_idx_loop (p : DateTime → Bool) : List DateTime → Option Nat
  | [] => none
  | t :: ts => if p t then some 0 else (find_idx_loop p ts).map Nat.succ

/-- `find_current_hour_index`: first index whose hour and date match `now`,
else `0`. -/
def find_current_hour_index (times : List DateTime) (now : DateTime) : Nat :=
  (find_idx_loop (fun t => t.hour == now.hour && decide (t.date = now.date)) times).getD 0

structure CurrentWeather where
  temp : Int
  code : Int
  feels_like : Int
  humidity : Int
  windspeed : Int
deriving DecidableEq

/-- `extract_current_weather`; `none` models an uncaught indexing error
(caught by the caller's `try`, which turns it into `fail`). -/
def extract_current_weather (data : Payload) (now : DateTime) : Option CurrentWeather :=
  let current := data.current_weather
  let hourly := data.hourly
  let times := hourly.time
  let idx := find_current_hour_index times now
  match (hourly.apparent_temperature.getD
            (List.replicate times.length current.temperature))[idx]?,
        (hourly.relativehumidity_2m.getD (List.replicate times.length 0))[idx]?,
        (hourly.windspeed_10m.getD (List.replicate times.length 0))[idx]? with
  | some feels, some hum, some wind =>
    some { temp := current.temperature, code := current.weathercode,
           feels_like := feels, humidity := hum, windspeed := wind }
  | some _, some _, none => none
  | some _, none, _ => none
  | none, _, _ => none

/-- Right-align to (at least) the given width, Python `f"{x:>w}"`. -/
def padLeftTo (w : Nat) (s : String) : String :=
  String.mk (List.replicate (w - s.length) ' ') ++ s

/-- Left-justify to (at least) the given width, Python `f"{x:<w}"`. -/
def padRightTo (w : Nat) (s : String) : String :=
  s ++ String.mk (List.replicate (w - s.length) ' ')

/-- Two-digit zero padding, as in `strftime` fields. -/
def pad2 (n : Nat) : String :=
  if n < 10 then "0" ++ toString n else toString n

/-- `dt.strftime("%H:%M")`. -/
def fmt_hm (d : DateTime) : String := pad2 d.hour ++ ":" ++ pad2 d.minute

/-- `dt.strftime("%I:%M %p")` (C locale). -/
def fmt_ampm (d : DateTime) : String :=
  pad2 (if d.hour % 12 = 0 then 12 else d.hour % 12) ++ ":" ++ pad2 d.minute ++
    (if d.hour < 12 then " AM" else " PM")

/-- Python `f"{n:.1f}"` for the integer-valued totals of this model. -/
def fmt_1f (n : Int) : String := toString n ++ ".0"

/-- `build_current_section`. -/
def build_current_section (weather : CurrentWeather) (location_name : String) : List String :=
  let icon := (get_weather_info weather.code).1
  let desc := (get_weather_info weather.code).2
  [ "🌡️ <span foreground='" ++ temp_to_color weather.temp ++ "'>" ++
      toString weather.temp ++ "°C</span> " ++
      "(Feels like <span foreground='" ++ temp_to_color weather.feels_like ++ "'>" ++
      toString weather.feels_like ++ "°C</span>)",
    icon ++ " " ++ desc,
    "💧 Humidity: " ++ toString weather.humidity ++ "%",
    "🌬️ Wind Speed: " ++ toString weather.windspeed ++ " km/h" ]

/-- The rows the rain loop of `build_today_rain_info` retains: zipped
(time, probability, precipitation) triples whose date is today and whose
timestamp is `>= now`. -/
def rainRows (hourly : Hourly) (now : DateTime) : List (DateTime × Int × Int) :=
  let times := hourly.time
  let rain_arr := hourly.precipitation_probability.getD (List.replicate times.length 0)
  let precip_arr := hourly.precipitation.getD (List.replicate times.length 0)
  (times.zip (rain_arr.zip precip_arr)).filter
    (fun r => decide (r.1.date = now.date) && DateTime.le now r.1)

/-- `build_today_rain_info`. -/
def build_today_rain_info (hourly : Hourly) (now : DateTime) : List String :=
  let rows := rainRows hourly now
  let rain_probs := rows.map (fun r => r.2.1)
  let precip_total := rows.foldl (fun acc r => acc + r.2.2) (0 : Int)
  let rain_start_time := (rows.find? (fun r => decide (0 < r.2.1))).map (fun r => r.1)
  match rain_probs with
  | [] => []
  | p :: ps =>
    if 0 < ps.foldl max p then
      [ "🌧️ Chance of rain today: <span foreground='" ++ FG_TEXT ++ "'>" ++
          toString (ps.foldl max p) ++ "%</span>",
        (match rain_start_time with
         | some dt => "⏱️ Expected rain start: " ++ fmt_ampm dt
         | none => "⏱️ Expected rain start: None predicted"),
        "☔ Total predicted rain: " ++ fmt_1f precip_total,
        "" ]
    else []

/-- One rendered line of `build_hourly_forecast`. -/
def render_hour_line (t : DateTime) (temp code : Int) : String :=
  let icon := (get_weather_info code).1
  let short_desc := get_short_desc (get_weather_info code).2
  fmt_hm t ++ " - <span foreground='" ++ temp_to_color temp ++ "'>" ++
    padLeftTo 2 (toString temp) ++ "°C</span> " ++ icon ++ " " ++ short_desc

/-- `build_hourly_forecast`. -/
def build_hourly_forecast (hourly : Hourly) (now : DateTime)
    (for_date : Nat × Nat × Nat) : List String :=
  let rows := hourly.time.zip (hourly.temperature_2m.zip hourly.weathercode)
  let lines := rows.filterMap (fun r =>
    if r.1.date = for_date then
      if for_date = now.date ∧ DateTime.lt r.1 now = true then none
      else some (render_hour_line r.1 r.2.1 r.2.2)
    else none)
  if lines.isEmpty then [("Hourly forecast unavailable")] else lines

/-- The rows `build_hourly_forecast` keeps when called on today's date:
date equals today's and timestamp not strictly before `now`. -/
def todayRows (hourly : Hourly) (now : DateTime) : List (DateTime × Int × Int) :=
  (hourly.time.zip (hourly.temperature_2m.zip hourly.weathercode)).filter
    (fun r => decide (r.1.date = now.date) && !(DateTime.lt r.1 now))

def TIME_LABELS : List (Nat × String) :=
  [ (6, ("Morning")), (12, ("Midday")), (15, ("Afternoon")), (18, ("Evening")) ]

/-- `build_tomorrow_forecast`. -/
def build_tomorrow_forecast (hourly : Hourly) (tomorrow : Nat × Nat × Nat) : List String :=
  let label_width := (TIME_LABELS.map (fun p => p.2.length)).foldl Nat.max 0
  let rows := hourly.time.zip (hourly.temperature_2m.zip hourly.weathercode)
  let lines := rows.filterMap (fun r =>
    if r.1.date = tomorrow then
      match TIME_LABELS.lookup r.1.hour with
      | some label =>
        some (padRightTo label_width label ++ " - <span foreground='" ++
          temp_to_color r.2.1 ++ "'>" ++ padLeftTo 2 (toString r.2.1) ++
          "°C</span> " ++ (get_weather_info r.2.2).1 ++ " " ++
          get_short_desc (get_weather_info r.2.2).2)
      | none => none
    else none)
  if lines.isEmpty then [("Tomorrow forecast unavailable")] else lines

def DAY_NAMES : List String :=
  [ ("Monday"), ("Tuesday"), ("Wednesday"), ("Thursday"), ("Friday"),
    ("Saturday"), ("Sunday") ]

def isLeap (y : Nat) : Bool := (y % 4 == 0 && y % 100 != 0) || y % 400 == 0

def days_before_month (y m : Nat) : Nat :=
  [0, 31, 59, 90, 120, 151, 181, 212, 243, 273, 304, 334].getD (m - 1) 0 +
    (if 2 < m && isLeap y then 1 else 0)

/-- Proleptic-Gregorian ordinal of a date, `date(y,m,d).toordinal()`. -/
def date_ordinal (y m d : Nat) : Nat :=
  365 * (y - 1) + (y - 1) / 4 - (y - 1) / 100 + (y - 1) / 400 +
    days_before_month y m + d

/-- `date(y,m,d).weekday()`: Monday is 0. -/
def weekday (y m d : Nat) : Nat := (date_ordinal y m d + 6) % 7

def days_in_month (y m : Nat) : Nat :=
  [31, if isLeap y then 29 else 28, 31, 30, 31, 30, 31, 31, 30, 31, 30, 31].getD (m - 1) 31

/-- `date + timedelta(days=1)`. -/
def next_date (d : Nat × Nat × Nat) : Nat × Nat × Nat :=
  if d.2.2 < days_in_month d.1 d.2.1 then (d.1, d.2.1, d.2.2 + 1)
  else if d.2.1 < 12 then (d.1, d.2.1 + 1, 1)
  else (d.1 + 1, 1, 1)

/-- One rendered line of `build_daily_forecast`. -/
def render_daily_line_core (date : DateTime) (mx mn code : Int) : String :=
  let day_name := String.mk
    ((DAY_NAMES.getD (weekday date.year date.month date.day) ("")).data.take 3)
  let icon := (get_weather_info code).1
  let short_desc := get_short_desc (get_weather_info code).2
  padRightTo 3 day_name ++ " " ++
    "⬆️<span foreground='" ++ temp_to_color mx ++ "'>" ++
    padLeftTo 2 (toString mx) ++ "°C</span> " ++
    "⬇️<span foreground='" ++ temp_to_color mn ++ "'>" ++
    padLeftTo 2 (toString mn) ++ "°C</span> " ++
    icon ++ " " ++ short_desc

/-- The body of `build_daily_forecast`'s `for` loop over a list of indices;
`none` models an `IndexError` on one of the four parallel arrays. -/
def daily_loop (daily : Daily) : List Nat → Option (List String)
  | [] => some []
  | i :: is =>
    match daily.time[i]?, daily.temperature_2m_max[i]?,
          daily.temperature_2m_min[i]?, daily.weathercode[i]? with
    | some date, some mx, some mn, some code =>
      match daily_loop daily is with
      | some rest => some (render_daily_line_core date mx mn code :: rest)
      | none => none
    | some _, some _, some _, none => none
    | some _, some _, none, _ => none
    | some _, none, _, _ => none
    | none, _, _, _ => none

/-- `build_daily_forecast`: iterates `range(1, min(days + 1, len(dates)))`.
There is no placeholder for the empty case. -/
def build_daily_forecast (daily : Daily) (days : Nat) : Option (List String) :=
  daily_loop daily (List.range' 1 (min (days + 1) daily.time.length - 1))

/-- The line `build_daily_forecast` renders for index `i` (specification-side
total description, used to characterise the loop under aligned lengths). -/
def daily_line_at (daily : Daily) (i : Nat) : String :=
  render_daily_line_core ((daily.time[i]?).getD (DateTime.mk 1 1 1 0 0))
    ((daily.temperature_2m_max[i]?).getD 0)
    ((daily.temperature_2m_min[i]?).getD 0)
    ((daily.weathercode[i]?).getD 0)

/-- `render_section`. -/
def render_section (lines : List String) (heading : String) (max_len : Nat) : List String :=
  [ "<span foreground='" ++ FG_HEADER ++ "' font='9'>" ++ heading ++ "</span>",
    "<span foreground='#ffffff'>" ++ String.mk (List.replicate max_len '─') ++ "</span>" ] ++
  lines.map (fun line => "<span foreground='" ++ FG_TEXT ++ "' font='9'>" ++ line ++ "</span>") ++
  [("")]

/-- `build_tooltip`. -/
def build_tooltip (sections : List (List String × String)) (max_len : Nat) : String :=
  String.intercalate ("\n")
    ((sections.map (fun s => render_section s.1 s.2 max_len)).flatten)

/-- The part of `main` after the fetch succeeded; `none` models a crash of
`build_daily_forecast`, which runs outside the `try` block. -/
def run_rest (data : Payload) (location_name : String) (now : DateTime) : Option ProcResult :=
  let tomorrow := next_date now.date
  match extract_current_weather data now with
  | none => some (fail ("Failed to parse current weather"))
  | some weather =>
    let icon := (get_weather_info weather.code).1
    let text := " | " ++ icon ++ " <span foreground='" ++ temp_to_color weather.temp ++
      "'>" ++ toString weather.temp ++ "°C</span>"
    let hourly := data.hourly
    let daily := data.daily
    let current_lines := build_current_section weather location_name
    let today_lines := build_today_rain_info hourly now ++
      build_hourly_forecast hourly now now.date
    let tomorrow_lines := build_tomorrow_forecast hourly tomorrow
    match build_daily_forecast daily DAYS_FORECAST with
    | none => none
    | some daily_lines =>
      let all_lines := current_lines ++ today_lines ++ tomorrow_lines ++ daily_lines
      let headings :=
        [ "🌍 Current Weather - " ++ location_name,
          ("☀️ Today Forecast:"),
          ("⛅ Tomorrow Forecast:"),
          "📅 Upcoming " ++ toString DAYS_FORECAST ++ "-day Forecast:" ]
      let max_len := max_line_length (all_lines ++ headings)
      let sections :=
        [ (current_lines, "🌍 Current Weather - " ++ location_name),
          (today_lines, ("☀️ Today Forecast:")),
          (tomorrow_lines, ("⛅ Tomorrow Forecast:")),
          (daily_lines, "📅 Upcoming " ++ toString DAYS_FORECAST ++ "-day Forecast:") ]
      let tooltip := build_tooltip sections max_len
      some { stdout := json_dumps_obj false
               [ (("text"), text), (("tooltip"), tooltip), (("markup"), ("pango")) ],
             exitCode := 0 }

/-- `main`, with every outbound network call supplied as an oracle: the two
location lookups as results and the forecast fetch as a function of the URL. -/
def run_main (ipResult : Except String String) (geoResult : Except String GeoResponse)
    (fetchf : String → Except String Payload) (now : DateTime) : Option ProcResult :=
  let loc := get_location_by_ip ipResult geoResult
  match fetch_weather_data (fetchf (build_api_url loc.1 loc.2.1)) with
  | .error out => some out
  | .ok data => run_rest data loc.2.2 now

/-- Length agreement of an optional hourly array with the time axis: an
absent array is replaced by a length-matched default, a present one must have
the length of `hourly["time"]`. -/
def aligned_opt (o : Option (List Int)) (n : Nat) : Bool :=
  match o with
  | none => true
  | some l => l.length == n

/-- Concrete daily payload whose array holds only today's entry. -/
def cexDaily : Daily := ⟨[⟨2024, 6, 1, 0, 0⟩], [20], [10], [0]⟩

/-- Concrete three-entry daily payload. -/
def wDaily : Daily :=
  ⟨[⟨2024, 10, 6, 0, 0⟩, ⟨2024, 10, 7, 0, 0⟩, ⟨2024, 10, 8, 0, 0⟩],
   [20, 25, 31], [10, 12, 14], [0, 61, 95]⟩

/-- The lines the multi-day builder renders for `wDaily`. -/
def wDailyLines : List String :=
  (List.range' 1 (min (5 + 1) wDaily.time.length - 1)).map (daily_line_at wDaily)

/-- Concrete reference time: 2024-06-01 09:00. -/
def wNow : DateTime := ⟨2024, 6, 1, 9, 0⟩

/-- Concrete hourly payload with one rainy afternoon entry. -/
def wHourly : Hourly :=
  ⟨[⟨2024, 6, 1, 13, 0⟩], [20], [0], none, none, none, some [40], some [2]⟩

/-- Hourly payload with no entries at all. -/
def wEmptyHourly : Hourly := ⟨[], [], [], none, none, none, none, none⟩

/-- A fetch oracle that always fails. -/
def wFetchErr : String → Except String Payload := fun _ => Except.error ("timeout")

/-- Concrete full payload. -/
def wPayload : Payload := ⟨⟨20, 3⟩, wHourly, wDaily⟩

theorem find_idx_loop_lt (p : DateTime → Bool) :
    ∀ (l : List DateTime) (i : Nat), find_idx_loop p l = some i → i < l.length := by
  intro l
  induction l with
  | nil => intro i h; simp [find_idx_loop] at h
  | cons t ts ih =>
    intro i h
    simp only [find_idx_loop] at h
    by_cases hp : p t
    · rw [if_pos hp] at h
      cases h
      simp
    · rw [if_neg hp] at h
      rw [Option.map_eq_some'] at h
      obtain ⟨j, hj, rfl⟩ := h
      have := ih j hj
      simp only [List.length_cons]
      omega

theorem find_current_hour_lt (times : List DateTime) (now : DateTime) (hne : times ≠ []) :
    find_current_hour_index times now < times.length := by
  unfold find_current_hour_index
  cases hf : find_idx_loop (fun t => t.hour == now.hour && decide (t.date = now.date)) times with
  | none => simpa using List.length_pos.mpr hne
  | some i => simpa using find_idx_loop_lt _ times i hf

theorem lt_foldl_max (c : Int) :
    ∀ (ps : List Int) (p : Int), c < ps.foldl max p ↔ c < p ∨ ∃ x ∈ ps, c < x := by
  intro ps
  induction ps with
  | nil => intro p; simp
  | cons x xs ih =>
    intro p
    simp only [List.foldl_cons]
    rw [ih (max p x)]
    constructor
    · rintro (h | h)
      · rcases lt_max_iff.mp h with h | h
        · exact Or.inl h
        · exact Or.inr ⟨x, List.mem_cons_self x xs, h⟩
      · obtain ⟨y, hy, hcy⟩ := h
        exact Or.inr ⟨y, List.mem_cons_of_mem x hy, hcy⟩
    · rintro (h | ⟨y, hy, hcy⟩)
      · exact Or.inl (lt_max_iff.mpr (Or.inl h))
      · rcases List.mem_cons.mp hy with rfl | hy
        · exact Or.inl (lt_max_iff.mpr (Or.inr hcy))
        · exact Or.inr ⟨y, hy, hcy⟩

theorem rain_nonempty_iff (hourly : Hourly) (now : DateTime) :
    build_today_rain_info hourly now ≠ [] ↔ ∃ r ∈ rainRows hourly now, 0 < r.2.1 := by
  cases hrows : (rainRows hourly now).map (fun r => r.2.1) with
  | nil =>
    have hempty : rainRows hourly now = [] := List.map_eq_nil_iff.mp hrows
    simp [build_today_rain_info, hrows, hempty]
  | cons p ps =>
    have hne : build_today_rain_info hourly now ≠ [] ↔ 0 < ps.foldl max p := by
      by_cases hm : 0 < ps.foldl max p
      · simp [build_today_rain_info, hrows, hm]
      · simp [build_today_rain_info, hrows, hm]
    rw [hne, lt_foldl_max]
    constructor
    · rintro (h | ⟨x, hx, hpos⟩)
      · have hmem : p ∈ (rainRows hourly now).map (fun r => r.2.1) := by
          rw [hrows]; exact List.mem_cons_self p ps
        obtain ⟨r, hr, hgr⟩ := List.mem_map.mp hmem
        exact ⟨r, hr, by rw [hgr]; exact h⟩
      · have hmem : x ∈ (rainRows hourly now).map (fun r => r.2.1) := by
          rw [hrows]; exact List.mem_cons_of_mem p hx
        obtain ⟨r, hr, hgr⟩ := List.mem_map.mp hmem
        exact ⟨r, hr, by rw [hgr]; exact hpos⟩
    · rintro ⟨r, hr, hpos⟩
      have hmem : r.2.1 ∈ (rainRows hourly now).map (fun r => r.2.1) :=
        List.mem_map_of_mem _ hr
      rw [hrows] at hmem
      rcases List.mem_cons.mp hmem with heq | hmem
      · exact Or.inl (heq ▸ hpos)
      · exact Or.inr ⟨r.2.1, hmem, hpos⟩

theorem rain_second_line (hourly : Hourly) (now : DateTime) :
    build_today_rain_info hourly now ≠ [] →
    (build_today_rain_info hourly now)[1]? =
      some (match (rainRows hourly now).find? (fun r => decide (0 < r.2.1)) with
            | some r => "⏱️ Expected rain start: " ++ fmt_ampm r.1
            | none => "⏱️ Expected rain start: None predicted") := by
  intro hne
  cases hrows : (rainRows hourly now).map (fun r => r.2.1) with
  | nil => exact absurd (by simp [build_today_rain_info, hrows]) hne
  | cons p ps =>
    by_cases hm : 0 < ps.foldl max p
    · cases hfind : (rainRows hourly now).find? (fun r => decide (0 < r.2.1)) with
      | none => simp [build_today_rain_info, hrows, hm, hfind]
      | some r => simp [build_today_rain_info, hrows, hm, hfind]
    · exact absurd (by simp [build_today_rain_info, hrows, hm]) hne

theorem daily_loop_eq (daily : Daily)
    (hmx : daily.temperature_2m_max.length = daily.time.length)
    (hmn : daily.temperature_2m_min.length = daily.time.length)
    (hc : daily.weathercode.length = daily.time.length) :
    ∀ l : List Nat, (∀ i ∈ l, i < daily.time.length) →
      daily_loop daily l = some (l.map (daily_line_at daily)) := by
  intro l
  induction l with
  | nil => intro _; rfl
  | cons i is ih =>
    intro hb
    have hi : i < daily.time.length := hb i (List.mem_cons_self i is)
    have h1 : daily.time[i]? = some daily.time[i] := List.getElem?_eq_getElem hi
    have h2 : daily.temperature_2m_max[i]? = some daily.temperature_2m_max[i] :=
      List.getElem?_eq_getElem (show i < daily.temperature_2m_max.length by omega)
    have h3 : daily.temperature_2m_min[i]? = some daily.temperature_2m_min[i] :=
      List.getElem?_eq_getElem (show i < daily.temperature_2m_min.length by omega)
    have h4 : daily.weathercode[i]? = some daily.weathercode[i] :=
      List.getElem?_eq_getElem (show i < daily.weathercode.length by omega)
    have hrest := ih (fun j hj => hb j (List.mem_cons_of_mem i hj))
    simp only [daily_loop, h1, h2, h3, h4, hrest, List.map_cons]
    simp [daily_line_at, h1, h2, h3, h4]

theorem hourly_filter_lines (now : DateTime) :
    ∀ rows : List (DateTime × Int × Int),
      rows.filterMap (fun r =>
        if r.1.date = now.date then
          if DateTime.lt r.1 now = true then none
          else some (render_hour_line r.1 r.2.1 r.2.2)
        else none) =
      (rows.filter (fun r => decide (r.1.date = now.date) && !(DateTime.lt r.1 now))).map
        (fun r => render_hour_line r.1 r.2.1 r.2.2) := by
  intro rows
  induction rows with
  | nil => rfl
  | cons a l ih =>
    rw [List.filterMap_cons, List.filter_cons]
    by_cases h1 : a.1.date = now.date
    · by_cases h2 : DateTime.lt a.1 now = true
      · simp [h1, h2, ih]
      · simp [h1, h2, ih]
    · simp [h1, ih]

theorem find_first_of (l : List (Int × String)) (p : Int × String → Bool) :
    ∀ (i : Nat) (h : i < l.length), p (l.get ⟨i, h⟩) = true →
      (∀ j (hj : j < l.length), j < i → p (l.get ⟨j, hj⟩) = false) →
      l.find? p = some (l.get ⟨i, h⟩) := by
  induction l with
  | nil => intro i h; exact absurd h (by simp)
  | cons a t ih =>
    intro i h hp hfirst
    cases i with
    | zero =>
      exact List.find?_cons_of_pos t hp
    | succ k =>
      have ha : p a = false := hfirst 0 (by simp) (Nat.succ_pos k)
      rw [List.find?_cons_of_neg t (by simp [ha])]
      exact ih k (by simpa using h) (by simpa using hp)
        (fun j hj hji => by simpa using hfirst (j + 1) (by simpa using hj) (by omega))

/-- C1: on any forecast-fetch failure the program prints exactly the JSON
object with the two keys `text` (value `N/A`) and `tooltip` (the styled
`Failed to fetch weather: <reason>` message) — no `markup` key — and exits
with success status 0.  The second conjunct shows the fully serialised
stdout line for a concrete reason. -/
theorem fetch_failure_fallback :
    (∀ e : String, fetch_weather_data (Except.error e) = Except.error
      { stdout := json_dumps_obj true
          [ (("text"), ("N/A")),
            (("tooltip"),
              ("<span foreground='#f4b8e4'>Failed to fetch weather: " ++ e ++ "</span>")) ],
        exitCode := 0 })
    ∧ fetch_weather_data (Except.error ("timeout")) = Except.error
        { stdout :=
            ("\x7b\"text\": \"N/A\", \"tooltip\": \"<span foreground='#f4b8e4'>Failed to fetch weather: timeout</span>\"\x7d"),
          exitCode := 0 } := by
  constructor
  · intro e
    simp only [fetch_weather_data, fail, FG_HEADER]
    rw [← String.append_assoc]
    rfl
  · rfl

/-- C2 counterexample: the multi-day builder has no placeholder: on a daily
array holding only today's entry it returns zero lines (with no indexing
error), refuting "the hourly, tomorrow, and multi-day forecast builders each
return at least one line". -/
theorem daily_forecast_empty_cex : build_daily_forecast cexDaily 5 = some [] := rfl

/-- C2 amended: the hourly and tomorrow builders always return at least one
line (a placeholder when their filtered data set is empty) and the today rain
block returns the empty sequence when no rain is predicted, but the multi-day
builder returns zero lines whenever `min(days + 1, len(dates)) <= 1`. -/
theorem builders_nonempty_amended : ∀ (hourly : Hourly) (now : DateTime)
    (for_date tomorrow : Nat × Nat × Nat) (daily : Daily) (days : Nat),
    build_hourly_forecast hourly now for_date ≠ []
    ∧ build_tomorrow_forecast hourly tomorrow ≠ []
    ∧ ((∀ r ∈ rainRows hourly now, r.2.1 ≤ 0) → build_today_rain_info hourly now = [])
    ∧ (min (days + 1) daily.time.length ≤ 1 → build_daily_forecast daily days = some []) := by
  intro hourly now for_date tomorrow daily days
  refine ⟨?_, ?_, ?_, ?_⟩
  · simp only [build_hourly_forecast]
    split
    · simp
    · next hsplit => simpa [List.isEmpty_iff] using hsplit
  · simp only [build_tomorrow_forecast]
    split
    · simp
    · next hsplit => simpa [List.isEmpty_iff] using hsplit
  · intro hnone
    by_contra hne
    obtain ⟨r, hr, hpos⟩ := (rain_nonempty_iff hourly now).mp hne
    exact absurd hpos (not_lt.mpr (hnone r hr))
  · intro hmin
    have hz : min (days + 1) daily.time.length - 1 = 0 := by omega
    simp [build_daily_forecast, hz, daily_loop]

theorem builders_nonempty_amended_witness :
    build_today_rain_info wEmptyHourly wNow = []
    ∧ build_daily_forecast cexDaily 0 = some [] := by
  have h := builders_nonempty_amended wEmptyHourly wNow (2024, 6, 1) (2024, 6, 2) cexDaily 0
  exact ⟨h.2.2.1 (by decide), h.2.2.2 (by decide)⟩

/-- C3: the rain block is non-empty exactly when some retained (future,
today) hourly entry has positive precipitation probability; when non-empty,
its second line reports the first such entry's timestamp, or the literal
`None predicted` when no positive entry was recorded, and the builder is a
total function (it never raises). -/
theorem rain_block_iff_and_start : ∀ (hourly : Hourly) (now : DateTime),
    (build_today_rain_info hourly now ≠ [] ↔ ∃ r ∈ rainRows hourly now, 0 < r.2.1)
    ∧ (build_today_rain_info hourly now ≠ [] →
        (build_today_rain_info hourly now)[1]? =
          some (match (rainRows hourly now).find? (fun r => decide (0 < r.2.1)) with
                | some r => "⏱️ Expected rain start: " ++ fmt_ampm r.1
                | none => "⏱️ Expected rain start: None predicted")) :=
  fun hourly now => ⟨rain_nonempty_iff hourly now, rain_second_line hourly now⟩

theorem rain_block_iff_and_start_witness :
    build_today_rain_info wHourly wNow ≠ []
    ∧ (build_today_rain_info wHourly wNow)[1]? =
        some ("⏱️ Expected rain start: 01:00 PM") := by
  have h := rain_block_iff_and_start wHourly wNow
  have hne : build_today_rain_info wHourly wNow ≠ [] := h.1.mpr (by decide)
  refine ⟨hne, ?_⟩
  rw [h.2 hne]
  rfl

/-- C4: on today's date the hourly builder renders exactly the zipped hourly
entries whose date is today and whose timestamp is not strictly before `now`,
in payload order, and substitutes the single placeholder line exactly when no
entry matches. -/
theorem hourly_forecast_today_filter : ∀ (hourly : Hourly) (now : DateTime),
    build_hourly_forecast hourly now now.date =
      if todayRows hourly now = [] then [("Hourly forecast unavailable")]
      else (todayRows hourly now).map (fun r => render_hour_line r.1 r.2.1 r.2.2) := by
  intro hourly now
  simp only [build_hourly_forecast, eq_self_iff_true, true_and]
  rw [hourly_filter_lines now]
  have hT : (hourly.time.zip (hourly.temperature_2m.zip hourly.weathercode)).filter
      (fun r => decide (r.1.date = now.date) && !(DateTime.lt r.1 now)) =
      todayRows hourly now := rfl
  rw [hT]
  by_cases he : todayRows hourly now = []
  · simp [he]
  · simp [he, List.isEmpty_iff, List.map_eq_nil_iff]

/-- C5: under index-aligned daily arrays the multi-day builder renders the
entries at indices `1 .. min(days + 1, len(dates)) - 1` in order — never the
entry at index 0 — and therefore returns at most
`min(days, len(dates) - 1)` lines. -/
theorem daily_forecast_skip_today : ∀ (daily : Daily) (days : Nat),
    daily.temperature_2m_max.length = daily.time.length →
    daily.temperature_2m_min.length = daily.time.length →
    daily.weathercode.length = daily.time.length →
    build_daily_forecast daily days =
      some ((List.range' 1 (min (days + 1) daily.time.length - 1)).map (daily_line_at daily))
    ∧ (∀ lines, build_daily_forecast daily days = some lines →
        lines.length ≤ min days (daily.time.length - 1)) := by
  intro daily days hmx hmn hc
  have hb : ∀ i ∈ List.range' 1 (min (days + 1) daily.time.length - 1),
      i < daily.time.length := by
    intro i hi
    have := List.mem_range'_1.mp hi
    omega
  have heq := daily_loop_eq daily hmx hmn hc _ hb
  refine ⟨heq, ?_⟩
  intro lines hlines
  rw [build_daily_forecast] at hlines
  rw [heq] at hlines
  cases hlines
  simp only [List.length_map, List.length_range']
  omega

theorem daily_forecast_skip_today_witness :
    build_daily_forecast wDaily 5 = some wDailyLines :=
  (daily_forecast_skip_today wDaily 5 rfl rfl rfl).1

/-- C6: `temp_to_color` returns the color of the first threshold that is
`>= t` in the ascending `TEMP_COLORS` list, the last color when every
threshold is `< t`, and in particular maps 14 to the first bucket's color,
33 to its own bucket's color, and 50 to the last color. -/
theorem temp_color_first_bound : ∀ (t : Int),
    (∀ i (h : i < TEMP_COLORS.length), t ≤ (TEMP_COLORS.get ⟨i, h⟩).1 →
      (∀ j (hj : j < TEMP_COLORS.length), j < i → (TEMP_COLORS.get ⟨j, hj⟩).1 < t) →
      temp_to_color t = (TEMP_COLORS.get ⟨i, h⟩).2)
    ∧ ((∀ i (h : i < TEMP_COLORS.length), (TEMP_COLORS.get ⟨i, h⟩).1 < t) →
        temp_to_color t = ("#e78284"))
    ∧ temp_to_color 14 = ("#8caaee")
    ∧ temp_to_color 33 = ("#ea999c")
    ∧ temp_to_color 50 = ("#e78284") := by
  intro t
  refine ⟨?_, ?_, by decide, by decide, by decide⟩
  · intro i h hle hfirst
    have hf := find_first_of TEMP_COLORS (fun p => decide (t ≤ p.1)) i h
      (by simpa using hle)
      (fun j hj hji => by simpa using not_le.mpr (hfirst j hj hji))
    unfold temp_to_color
    rw [hf]
  · intro hall
    have hf : TEMP_COLORS.find? (fun p => decide (t ≤ p.1)) = none := by
      rw [List.find?_eq_none]
      intro x hx
      obtain ⟨n, rfl⟩ := List.mem_iff_get.mp hx
      simpa using not_le.mpr (hall n.1 n.2)
    unfold temp_to_color
    rw [hf]
    rfl

theorem temp_color_first_bound_witness : temp_to_color 16 = ("#85c1dc") :=
  (temp_color_first_bound 16).1 1 (by decide) (by decide) (by decide)

/-- C7: whatever the two location lookups return (including failures,
responses missing `lat`/`lon`, and responses missing `city`), the locator is
total and yields either the looked-up coordinates with the `city` label
defaulted to `Your Location`, or the fallback triple
`(0.0, 0.0, "Your Location")`; a missing `city` alone keeps the looked-up
coordinates. -/
theorem location_never_raises : ∀ (ipR : Except String String)
    (geoR : Except String GeoResponse),
    (get_location_by_ip ipR geoR = (0, 0, ("Your Location"))
     ∨ ∃ ip g, ipR = Except.ok ip ∧ geoR = Except.ok g ∧ ∃ la lo,
         g.lat = some la ∧ g.lon = some lo ∧
         get_location_by_ip ipR geoR = (la, lo, g.city.getD ("Your Location")))
    ∧ ∀ (ip : String) (la lo : Int),
        get_location_by_ip (Except.ok ip) (Except.ok ⟨some la, some lo, none⟩) =
          (la, lo, ("Your Location")) := by
  intro ipR geoR
  constructor
  · match ipR with
    | .error _ => exact Or.inl rfl
    | .ok ip =>
      match geoR with
      | .error _ => exact Or.inl rfl
      | .ok g =>
        match hla : g.lat, hlo : g.lon with
        | some la, some lo =>
          exact Or.inr ⟨ip, g, rfl, rfl, la, lo, hla, hlo, by
            simp [get_location_by_ip, hla, hlo]⟩
        | some _, none => exact Or.inl (by simp [get_location_by_ip, hla, hlo])
        | none, _ => exact Or.inl (by simp [get_location_by_ip, hla])
  · intro ip la lo
    rfl

/-- C8: the pipeline is deterministic: two runs with the same oracle results
(location lookups and fetch) and the same wall-clock time produce the same
output. -/
theorem pipeline_deterministic : ∀ (ipR1 ipR2 : Except String String)
    (geoR1 geoR2 : Except String GeoResponse)
    (f1 f2 : String → Except String Payload) (now1 now2 : DateTime),
    ipR1 = ipR2 → geoR1 = geoR2 → f1 = f2 → now1 = now2 →
    run_main ipR1 geoR1 f1 now1 = run_main ipR2 geoR2 f2 now2 := by
  intro ipR1 ipR2 geoR1 geoR2 f1 f2 now1 now2 h1 h2 h3 h4
  rw [h1, h2, h3, h4]

theorem pipeline_deterministic_witness :
    run_main (Except.error ("ip down")) (Except.error ("geo down")) wFetchErr wNow =
      run_main (Except.error ("ip down")) (Except.error ("geo down")) wFetchErr wNow :=
  pipeline_deterministic _ _ _ _ _ _ _ _ rfl rfl rfl rfl

/-- C9: on a non-empty timestamp list `find_current_hour_index` returns an
in-range index, so `extract_current_weather` succeeds (its indexing of each
hourly array or its length-matched default is in range) whenever each present
hourly array has the length of the timestamp list. -/
theorem extract_index_in_range : ∀ (times : List DateTime) (now : DateTime)
    (data : Payload),
    (times ≠ [] → find_current_hour_index times now < times.length)
    ∧ (data.hourly.time ≠ [] →
       aligned_opt data.hourly.apparent_temperature data.hourly.time.length = true →
       aligned_opt data.hourly.relativehumidity_2m data.hourly.time.length = true →
       aligned_opt data.hourly.windspeed_10m data.hourly.time.length = true →
       (extract_current_weather data now).isSome = true) := by
  intro times now data
  refine ⟨fun hne => find_current_hour_lt times now hne, ?_⟩
  intro hne h1 h2 h3
  have hlt := find_current_hour_lt data.hourly.time now hne
  have e1 : (data.hourly.apparent_temperature.getD
      (List.replicate data.hourly.time.length data.current_weather.temperature)).length =
      data.hourly.time.length := by
    cases ho : data.hourly.apparent_temperature with
    | none => simp
    | some l => rw [ho] at h1; simp only [aligned_opt, beq_iff_eq] at h1; simpa using h1
  have e2 : (data.hourly.relativehumidity_2m.getD
      (List.replicate data.hourly.time.length 0)).length = data.hourly.time.length := by
    cases ho : data.hourly.relativehumidity_2m with
    | none => simp
    | some l => rw [ho] at h2; simp only [aligned_opt, beq_iff_eq] at h2; simpa using h2
  have e3 : (data.hourly.windspeed_10m.getD
      (List.replicate data.hourly.time.length 0)).length = data.hourly.time.length := by
    cases ho : data.hourly.windspeed_10m with
    | none => simp
    | some l => rw [ho] at h3; simp only [aligned_opt, beq_iff_eq] at h3; simpa using h3
  have g1 := List.getElem?_eq_getElem (show find_current_hour_index data.hourly.time now <
    (data.hourly.apparent_temperature.getD
      (List.replicate data.hourly.time.length data.current_weather.temperature)).length by omega)
  have g2 := List.getElem?_eq_getElem (show find_current_hour_index data.hourly.time now <
    (data.hourly.relativehumidity_2m.getD
      (List.replicate data.hourly.time.length 0)).length by omega)
  have g3 := List.getElem?_eq_getElem (show find_current_hour_index data.hourly.time now <
    (data.hourly.windspeed_10m.getD
      (List.replicate data.hourly.time.length 0)).length by omega)
  simp only [extract_current_weather, g1, g2, g3, Option.isSome_some]

theorem extract_index_in_range_witness :
    find_current_hour_index wPayload.hourly.time wNow < wPayload.hourly.time.length
    ∧ (extract_current_weather wPayload wNow).isSome = true := by
  have h := extract_index_in_range wPayload.hourly.time wNow wPayload
  exact ⟨h.1 (by decide), h.2 (by decide) (by decide) (by decide) (by decide)⟩

/-- C10: the today rain block is either empty or exactly four lines whose
last element is the empty separator line; it is never a partial block. -/
theorem rain_info_shape : ∀ (hourly : Hourly) (now : DateTime),
    build_today_rain_info hourly now = [] ∨
    ((build_today_rain_info hourly now).length = 4 ∧
      (build_today_rain_info hourly now).getLast? = some (("")) ) := by
  intro hourly now
  cases hrows : (rainRows hourly now).map (fun r => r.2.1) with
  | nil => exact Or.inl (by simp [build_today_rain_info, hrows])
  | cons p ps =>
    by_cases hm : 0 < ps.foldl max p
    · refine Or.inr ⟨?_, ?_⟩
      · simp [build_today_rain_info, hrows, hm]
      · simp [build_today_rain_info, hrows, hm]
    · exact Or.inl (by simp [build_today_rain_info, hrows, hm])

end Weather
